import Mathlib

/-!
Verification of the crossterm capability-negotiation core: the event filters
(`src/event/filter.rs`), the raw-mode state machine and the four negotiation
queries (`src/terminal/sys/unix.rs`), shallowly embedded in Lean.

External effects are made explicit:
  * terminal attributes (`Termios`) are threaded as state, and the outcomes of
    the fallible syscalls (`tty_fd`, `tcgetattr`, `tcsetattr`) are scripted by
    a `SysEnv` record of success flags;
  * the Event Source is modelled as a FIFO queue of `InternalEvent`s plus a
    per-iteration script (`Iter`) of poll/read outcomes, following the
    interface contract: `poll` returns true/false/error, `read filter`
    consumes the first matching event from the queue and never returns a
    non-matching one.
-/

namespace Crossterm

/-- Theme mode payload of the theme-change reply. -/
inductive ThemeMode
  | dark
  | light

/-- Reply payload of the DECRQM synchronized-output query. -/
inductive SynchronizedOutputMode
  | unknown
  | isSet
  | reset

/-- Keyboard enhancement flags: a small bitset, modelled as its numeric value
(the negotiation core treats the payload as opaque). -/
abbrev KeyboardEnhancementFlags := Nat

/-- Modelled from the spec: the `Event` union (defined in `src/event.rs`, not
included under `src/`) has ordinary user-input variants — key, mouse, resize,
paste, focus — plus the theme-change variant that the theme filter must
recognize. Payloads other than the theme mode are opaque to this core. -/
inductive Event
  | key (code : Nat)
  | mouse (code : Nat)
  | resize (cols rows : Nat)
  | paste (s : String)
  | focusGained
  | focusLost
  | themeModeChanged (t : ThemeMode)

/-- Modelled from the spec: the `InternalEvent` union (defined in
`src/event/mod.rs`, not included under `src/`); the variant set is exactly the
one matched by the filters in `src/event/filter.rs` and by the queries in
`src/terminal/sys/unix.rs`. -/
inductive InternalEvent
  | event (e : Event)
  | cursorPosition (row col : Nat)
  | keyboardEnhancementFlags (f : KeyboardEnhancementFlags)
  | primaryDeviceAttributes
  | synchronizedOutputMode (m : SynchronizedOutputMode)

/-- `CursorPositionFilter::eval` from `src/event/filter.rs`. -/
def CursorPositionFilter.eval (event : InternalEvent) : Bool :=
  match event with
  | .cursorPosition _ _ => true
  | _ => false

/-- `KeyboardEnhancementFlagsFilter::eval` from `src/event/filter.rs`. -/
def KeyboardEnhancementFlagsFilter.eval (event : InternalEvent) : Bool :=
  match event with
  | .keyboardEnhancementFlags _ => true
  | .primaryDeviceAttributes => true
  | _ => false

/-- `PrimaryDeviceAttributesFilter::eval` from `src/event/filter.rs`. -/
def PrimaryDeviceAttributesFilter.eval (event : InternalEvent) : Bool :=
  match event with
  | .primaryDeviceAttributes => true
  | _ => false

/-- `ThemeModeFilter::eval` from `src/event/filter.rs`. -/
def ThemeModeFilter.eval (event : InternalEvent) : Bool :=
  match event with
  | .event (.themeModeChanged _) => true
  | .primaryDeviceAttributes => true
  | _ => false

/-- `SynchronizedOutputModeFilter::eval` from `src/event/filter.rs`. -/
def SynchronizedOutputModeFilter.eval (event : InternalEvent) : Bool :=
  match event with
  | .synchronizedOutputMode _ => true
  | .primaryDeviceAttributes => true
  | _ => false

/-- `TerminalFeaturesFilter::eval` from `src/event/filter.rs`. -/
def TerminalFeaturesFilter.eval (event : InternalEvent) : Bool :=
  match event with
  | .keyboardEnhancementFlags _ => true
  | .event (.themeModeChanged _) => true
  | .synchronizedOutputMode _ => true
  | .primaryDeviceAttributes => true
  | _ => false

/-- `EventFilter::eval` (unix variant) from `src/event/filter.rs`. -/
def EventFilter.eval (event : InternalEvent) : Bool :=
  match event with
  | .event _ => true
  | _ => false

end Crossterm

namespace Crossterm

/-- Terminal mode attributes (`termios`); the negotiation core treats them as
an opaque value that is read, transformed and written back, so a numeric code
suffices. -/
abbrev Termios := Nat

/-- Errors surfaced by the core: the distinct timeout error created on a
`poll` that returns false, and any OS-boundary I/O failure. -/
inductive IOErr
  | timeout
  | sys

/-- Outcome script for the fallible syscalls used by `enable_raw_mode` /
`disable_raw_mode` in `src/terminal/sys/unix.rs`: whether `tty_fd`,
`get_terminal_attr` and `set_terminal_attr` succeed. -/
structure SysEnv where
  ttyOk : Bool
  getOk : Bool
  setOk : Bool

/-- `enable_raw_mode` from `src/terminal/sys/unix.rs`. State passed
explicitly: `term` is the terminal's current attributes, `saved` is the
`TERMINAL_MODE_PRIOR_RAW_MODE` cell; `rawOf` is the `cfmakeraw` /
`Termios::make_raw` transform (external libc collaborator). Returns
(result, saved', term'). If already raw, returns `Ok` immediately; otherwise
opens the tty, reads the attributes, applies the raw transform, and records
the original only after the apply succeeded. -/
def enable_raw_mode (rawOf : Termios → Termios) (env : SysEnv) (term : Termios)
    (saved : Option Termios) : Except IOErr Unit × Option Termios × Termios :=
  match saved with
  | some _ => (.ok (), saved, term)
  | none =>
    if env.ttyOk then
      if env.getOk then
        if env.setOk then
          (.ok (), some term, rawOf term)
        else (.error .sys, none, term)
      else (.error .sys, none, term)
    else (.error .sys, none, term)

/-- `disable_raw_mode` from `src/terminal/sys/unix.rs`. If not raw, `Ok`
no-op; otherwise re-applies the saved original attributes and clears the
saved cell only after the apply succeeded. -/
def disable_raw_mode (env : SysEnv) (term : Termios)
    (saved : Option Termios) : Except IOErr Unit × Option Termios × Termios :=
  match saved with
  | none => (.ok (), none, term)
  | some orig =>
    if env.ttyOk then
      if env.setOk then
        (.ok (), none, orig)
      else (.error .sys, saved, term)
    else (.error .sys, saved, term)

/-- `is_raw_mode_enabled` from `src/terminal/sys/unix.rs`: a pure read of the
saved-original cell. -/
def is_raw_mode_enabled (saved : Option Termios) : Bool :=
  saved.isSome

/-- Outcome of one `poll_internal` call (`io::Result<bool>`): ready /
timed out / transient error. -/
inductive PollRes
  | ok (b : Bool)
  | err

/-- Scripted outcomes of the external Event Source calls made during one
iteration of a query loop: the `poll_internal` result, whether the
`read_internal` on the query's filter succeeds, and whether the drain
`read_internal` on `PrimaryDeviceAttributesFilter` succeeds. -/
structure Iter where
  pollRes : PollRes
  readOk : Bool
  drainOk : Bool

/-- Remove the first event accepted by `filter` from the queue, keeping
every other event in order; `none` if no queued event matches. -/
def extractFirst (filter : InternalEvent → Bool) :
    List InternalEvent → Option (InternalEvent × List InternalEvent)
  | [] => none
  | e :: rest =>
    if filter e then
      some (e, rest)
    else
      match extractFirst filter rest with
      | some (x, rest') => some (x, e :: rest')
      | none => none

/-- Modelled from the spec: the Event Source's `read_internal(filter)`
(implemented outside `src/`). It returns the first queued event matching the
filter, never a non-matching one, removing it from the queue; `ok = false`
scripts a transient I/O failure, which leaves the queue unchanged. A call
with no matching event queued blocks until one arrives or the underlying
read fails; within a finite scenario it is modelled as a failure. -/
def read_internal (filter : InternalEvent → Bool) (ok : Bool)
    (q : List InternalEvent) : Except Unit (InternalEvent × List InternalEvent) :=
  if ok then
    match extractFirst filter q with
    | some r => .ok r
    | none => .error ()
  else .error ()

/-- The `read_internal(&PrimaryDeviceAttributesFilter).ok()` drain used by
the per-feature queries: the result is discarded, only the queue effect
remains, and a failed drain leaves the queue unchanged. -/
def drain_primary_device_attributes (ok : Bool) (q : List InternalEvent) :
    List InternalEvent :=
  match read_internal PrimaryDeviceAttributesFilter.eval ok q with
  | .ok (_, q') => q'
  | .error _ => q

/-- The poll/read loop of `query_terminal_theme_mode_raw` from
`src/terminal/sys/unix.rs` (the probe `ESC [ ? 996 n ESC [ c` has already
been written). One `Iter` is consumed per `poll_internal` call; `none` means
the scenario script ended before the loop returned. -/
def query_terminal_theme_mode_raw :
    List Iter → List InternalEvent →
      Option (Except IOErr (Option ThemeMode) × List InternalEvent)
  | [], _ => none
  | it :: rest, q =>
    match it.pollRes with
    | .ok true =>
      match read_internal ThemeModeFilter.eval it.readOk q with
      | .ok (.event (.themeModeChanged themeMode), q1) =>
          some (.ok (some themeMode), drain_primary_device_attributes it.drainOk q1)
      | .ok (_, q1) => some (.ok none, q1)
      | .error _ => some (.ok none, q)
    | .ok false => some (.error .timeout, q)
    | .err => query_terminal_theme_mode_raw rest q

/-- The poll/read loop of `supports_synchronized_output_raw` from
`src/terminal/sys/unix.rs` (the probe `ESC [ ? 2026 $ p ESC [ c` has already
been written). -/
def supports_synchronized_output_raw :
    List Iter → List InternalEvent →
      Option (Except IOErr Bool × List InternalEvent)
  | [], _ => none
  | it :: rest, q =>
    match it.pollRes with
    | .ok true =>
      match read_internal SynchronizedOutputModeFilter.eval it.readOk q with
      | .ok (.synchronizedOutputMode .isSet, q1)
      | .ok (.synchronizedOutputMode .reset, q1) =>
          some (.ok true, drain_primary_device_attributes it.drainOk q1)
      | .ok (_, q1) => some (.ok false, q1)
      | .error _ => some (.ok false, q)
    | .ok false => some (.error .timeout, q)
    | .err => supports_synchronized_output_raw rest q

/-- The poll/read loop of `query_keyboard_enhancement_flags_raw` from
`src/terminal/sys/unix.rs` (the probe `ESC [ ? u ESC [ c` has already been
written). -/
def query_keyboard_enhancement_flags_raw :
    List Iter → List InternalEvent →
      Option (Except IOErr (Option KeyboardEnhancementFlags) × List InternalEvent)
  | [], _ => none
  | it :: rest, q =>
    match it.pollRes with
    | .ok true =>
      match read_internal KeyboardEnhancementFlagsFilter.eval it.readOk q with
      | .ok (.keyboardEnhancementFlags currentFlags, q1) =>
          some (.ok (some currentFlags), drain_primary_device_attributes it.drainOk q1)
      | .ok (_, q1) => some (.ok none, q1)
      | .error _ => some (.ok none, q)
    | .ok false => some (.error .timeout, q)
    | .err => query_keyboard_enhancement_flags_raw rest q

/-- `TerminalFeatures` from the event model: aggregate result of the
combined query. -/
structure TerminalFeatures where
  keyboard_enhancement_flags : Option KeyboardEnhancementFlags
  synchronized_output_mode : SynchronizedOutputMode
  theme_mode : Option ThemeMode

/-- Modelled from the spec: `TerminalFeatures::default()` (derived in
`src/event.rs`, not included under `src/`) — keyboard flags absent,
synchronized output mode `Unknown`, theme mode absent. -/
def TerminalFeatures.default : TerminalFeatures :=
  ⟨none, .unknown, none⟩

/-- The accumulation loop of `terminal_features_raw` from
`src/terminal/sys/unix.rs`: `features` is the accumulator mutated as each
feature-specific reply arrives; any other matching event (the
`PrimaryDeviceAttributes` beacon) or a read failure ends the loop with the
accumulated value. -/
def terminal_features_loop :
    List Iter → List InternalEvent → TerminalFeatures →
      Option (Except IOErr TerminalFeatures × List InternalEvent)
  | [], _, _ => none
  | it :: rest, q, features =>
    match it.pollRes with
    | .ok true =>
      match read_internal TerminalFeaturesFilter.eval it.readOk q with
      | .ok (.keyboardEnhancementFlags flags, q1) =>
          terminal_features_loop rest q1
            { features with keyboard_enhancement_flags := some flags }
      | .ok (.synchronizedOutputMode mode, q1) =>
          terminal_features_loop rest q1
            { features with synchronized_output_mode := mode }
      | .ok (.event (.themeModeChanged themeMode), q1) =>
          terminal_features_loop rest q1
            { features with theme_mode := some themeMode }
      | .ok (_, q1) => some (.ok features, q1)
      | .error _ => some (.ok features, q)
    | .ok false => some (.error .timeout, q)
    | .err => terminal_features_loop rest q features

/-- `terminal_features_raw` from `src/terminal/sys/unix.rs` (the probe
`ESC [ ? u ESC [ ? 2026 $ p ESC [ ? 996 n ESC [ c` has already been
written): runs the loop starting from `TerminalFeatures::default()`. -/
def terminal_features_raw (iters : List Iter) (q : List InternalEvent) :
    Option (Except IOErr TerminalFeatures × List InternalEvent) :=
  terminal_features_loop iters q TerminalFeatures.default

/-- Trace of the calls a nonraw wrapper makes, in order. -/
inductive Action
  | enableRaw
  | rawQuery
  | disableRaw

/-- The shared shape of the four `*_nonraw` wrappers in
`src/terminal/sys/unix.rs`: `enable_raw_mode()?;` then the raw-mode query
(its already-computed outcome is passed in as `rawRes`, `none` meaning the
query never returned), then `disable_raw_mode()?;` and finally the query's
result. Also returns the saved-original cell, the terminal attributes and
the call trace. -/
def nonraw_wrapper {β : Type} (rawOf : Termios → Termios) (eenv denv : SysEnv)
    (term : Termios) (saved : Option Termios) (rawRes : Option (Except IOErr β)) :
    Option (Except IOErr β) × Option Termios × Termios × List Action :=
  match enable_raw_mode rawOf eenv term saved with
  | (.error e, st1, t1) => (some (.error e), st1, t1, [.enableRaw])
  | (.ok _, st1, t1) =>
    match rawRes with
    | none => (none, st1, t1, [.enableRaw, .rawQuery])
    | some r =>
      match disable_raw_mode denv t1 st1 with
      | (.error e, st2, t2) =>
          (some (.error e), st2, t2, [.enableRaw, .rawQuery, .disableRaw])
      | (.ok _, st2, t2) => (some r, st2, t2, [.enableRaw, .rawQuery, .disableRaw])

/-- `query_terminal_theme_mode_nonraw` from `src/terminal/sys/unix.rs`. -/
def query_terminal_theme_mode_nonraw (rawOf : Termios → Termios)
    (eenv denv : SysEnv) (term : Termios) (saved : Option Termios)
    (iters : List Iter) (q : List InternalEvent) :
    Option (Except IOErr (Option ThemeMode)) × Option Termios × Termios × List Action :=
  nonraw_wrapper rawOf eenv denv term saved
    ((query_terminal_theme_mode_raw iters q).map Prod.fst)

/-- `supports_synchronized_output_nonraw` from `src/terminal/sys/unix.rs`. -/
def supports_synchronized_output_nonraw (rawOf : Termios → Termios)
    (eenv denv : SysEnv) (term : Termios) (saved : Option Termios)
    (iters : List Iter) (q : List InternalEvent) :
    Option (Except IOErr Bool) × Option Termios × Termios × List Action :=
  nonraw_wrapper rawOf eenv denv term saved
    ((supports_synchronized_output_raw iters q).map Prod.fst)

/-- `query_keyboard_enhancement_flags_nonraw` from `src/terminal/sys/unix.rs`. -/
def query_keyboard_enhancement_flags_nonraw (rawOf : Termios → Termios)
    (eenv denv : SysEnv) (term : Termios) (saved : Option Termios)
    (iters : List Iter) (q : List InternalEvent) :
    Option (Except IOErr (Option KeyboardEnhancementFlags))
      × Option Termios × Termios × List Action :=
  nonraw_wrapper rawOf eenv denv term saved
    ((query_keyboard_enhancement_flags_raw iters q).map Prod.fst)

/-- `terminal_features_nonraw` from `src/terminal/sys/unix.rs`. -/
def terminal_features_nonraw (rawOf : Termios → Termios)
    (eenv denv : SysEnv) (term : Termios) (saved : Option Termios)
    (iters : List Iter) (q : List InternalEvent) :
    Option (Except IOErr TerminalFeatures) × Option Termios × Termios × List Action :=
  nonraw_wrapper rawOf eenv denv term saved
    ((terminal_features_raw iters q).map Prod.fst)

/-- C1: Each concrete filter's `eval` returns true exactly on its accepted
topic set: `CursorPositionFilter` only on `CursorPosition`;
`KeyboardEnhancementFlagsFilter` exactly on `KeyboardEnhancementFlags(_)` or
`PrimaryDeviceAttributes`; `PrimaryDeviceAttributesFilter` only on
`PrimaryDeviceAttributes`; `ThemeModeFilter` exactly on
`Event(ThemeModeChanged(_))` or `PrimaryDeviceAttributes`;
`SynchronizedOutputModeFilter` exactly on `SynchronizedOutputMode(_)` or
`PrimaryDeviceAttributes`; `TerminalFeaturesFilter` exactly on the union of
those three topics plus `PrimaryDeviceAttributes`; `EventFilter` on every
`Event(_)` and on nothing else. -/
theorem c1_filter_truth_table (e : InternalEvent) :
    (CursorPositionFilter.eval e = true ↔ ∃ r c, e = .cursorPosition r c)
    ∧ (KeyboardEnhancementFlagsFilter.eval e = true ↔
        ((∃ f, e = .keyboardEnhancementFlags f) ∨ e = .primaryDeviceAttributes))
    ∧ (PrimaryDeviceAttributesFilter.eval e = true ↔ e = .primaryDeviceAttributes)
    ∧ (ThemeModeFilter.eval e = true ↔
        ((∃ t, e = .event (.themeModeChanged t)) ∨ e = .primaryDeviceAttributes))
    ∧ (SynchronizedOutputModeFilter.eval e = true ↔
        ((∃ m, e = .synchronizedOutputMode m) ∨ e = .primaryDeviceAttributes))
    ∧ (TerminalFeaturesFilter.eval e = true ↔
        ((∃ f, e = .keyboardEnhancementFlags f)
          ∨ (∃ t, e = .event (.themeModeChanged t))
          ∨ (∃ m, e = .synchronizedOutputMode m)
          ∨ e = .primaryDeviceAttributes))
    ∧ (EventFilter.eval e = true ↔ ∃ ev, e = .event ev) := by
  cases e with
  | event ev =>
      cases ev <;>
        simp [CursorPositionFilter.eval, KeyboardEnhancementFlagsFilter.eval,
          PrimaryDeviceAttributesFilter.eval, ThemeModeFilter.eval,
          SynchronizedOutputModeFilter.eval, TerminalFeaturesFilter.eval,
          EventFilter.eval]
  | _ =>
      simp [CursorPositionFilter.eval, KeyboardEnhancementFlagsFilter.eval,
        PrimaryDeviceAttributesFilter.eval, ThemeModeFilter.eval,
        SynchronizedOutputModeFilter.eval, TerminalFeaturesFilter.eval,
        EventFilter.eval]

/-- C2: `enable_raw_mode` is idempotent and `disable_raw_mode` without a
prior enable is a no-op: after any successful `enable_raw_mode`, a second
call (under any syscall environment) returns `Ok` without overwriting the
saved original attributes or touching the terminal, so the saved-original
state after two calls is identical to after one; and `disable_raw_mode`
while the state is not raw returns `Ok` without changing the state or the
terminal. -/
theorem c2_raw_mode_idempotent_noop (rawOf : Termios → Termios)
    (env1 env2 denv : SysEnv) (term t1 : Termios) (st st1 : Option Termios) :
    (enable_raw_mode rawOf env1 term st = (.ok (), st1, t1) →
      enable_raw_mode rawOf env2 t1 st1 = (.ok (), st1, t1))
    ∧ (st = none → disable_raw_mode denv term st = (.ok (), none, term)) := by
  constructor
  · intro h
    obtain ⟨o, rfl⟩ : ∃ o, st1 = some o := by
      cases st with
      | some o =>
          simp only [enable_raw_mode, Prod.mk.injEq] at h
          exact ⟨o, by simp [← h.2.1]⟩
      | none =>
          obtain ⟨a, b, c⟩ := env1
          cases a <;> cases b <;> cases c <;> simp [enable_raw_mode] at h
          obtain ⟨h1, h2⟩ := h
          first
          | exact ⟨term, h1⟩
          | exact ⟨term, h1.symm⟩
    simp [enable_raw_mode]
  · intro h
    subst h
    simp [disable_raw_mode]

/-- C2 witness: instantiated with raw transform `id`, an all-successful
syscall environment, terminal attributes `0` and a saved original of `0`. -/
theorem c2_raw_mode_idempotent_noop_witness :
    enable_raw_mode id ⟨true, true, true⟩ 0 (some 0) = (.ok (), some 0, 0)
    ∧ disable_raw_mode ⟨true, true, true⟩ 0 none = (.ok (), none, 0) :=
  ⟨(c2_raw_mode_idempotent_noop id ⟨true, true, true⟩ ⟨true, true, true⟩
      ⟨true, true, true⟩ 0 0 none (some 0)).1 (by rfl),
   (c2_raw_mode_idempotent_noop id ⟨true, true, true⟩ ⟨true, true, true⟩
      ⟨true, true, true⟩ 0 0 none (some 0)).2 rfl⟩

/-- C3: failure atomicity. If any step of `enable_raw_mode` fails (opening
the tty, reading the attributes, or applying the raw attributes), it returns
an error and the state stays Cooked — no saved original is recorded and the
terminal is untouched. If re-applying the original in `disable_raw_mode`
fails (set failure, or the tty cannot be opened), it returns an error and the
saved original attributes remain stored for a later retry. -/
theorem c3_raw_mode_failure_atomic (rawOf : Termios → Termios)
    (eenv denv : SysEnv) (term orig : Termios) :
    ((eenv.ttyOk && eenv.getOk && eenv.setOk) = false →
      enable_raw_mode rawOf eenv term none = (.error .sys, none, term))
    ∧ ((denv.ttyOk && denv.setOk) = false →
      disable_raw_mode denv term (some orig) = (.error .sys, some orig, term)) := by
  constructor
  · intro h
    obtain ⟨a, b, c⟩ := eenv
    cases a <;> cases b <;> cases c <;> simp_all [enable_raw_mode]
  · intro h
    obtain ⟨a, b, c⟩ := denv
    cases a <;> cases c <;> simp_all [disable_raw_mode]

/-- C3 witness: a failing tty open during enable, and a failing attribute
re-apply during disable with saved original `5`. -/
theorem c3_raw_mode_failure_atomic_witness :
    enable_raw_mode id ⟨false, true, true⟩ 0 none = (.error .sys, none, 0)
    ∧ disable_raw_mode ⟨true, true, false⟩ 0 (some 5) = (.error .sys, some 5, 0) :=
  ⟨(c3_raw_mode_failure_atomic id ⟨false, true, true⟩ ⟨true, true, false⟩ 0 5).1 rfl,
   (c3_raw_mode_failure_atomic id ⟨false, true, true⟩ ⟨true, true, false⟩ 0 5).2 rfl⟩

/-- C5: for every negotiation query, a `poll` that returns false (nothing
matched within the bounded window) makes the query return the timeout error
immediately — never a success value such as `Ok(None)` or `Ok(false)` — and
the timeout is not retried (the result does not depend on the remaining
script). -/
theorem c5_timeout_is_error (r d : Bool) (rest : List Iter)
    (q : List InternalEvent) :
    query_terminal_theme_mode_raw (⟨.ok false, r, d⟩ :: rest) q
        = some (.error .timeout, q)
    ∧ supports_synchronized_output_raw (⟨.ok false, r, d⟩ :: rest) q
        = some (.error .timeout, q)
    ∧ query_keyboard_enhancement_flags_raw (⟨.ok false, r, d⟩ :: rest) q
        = some (.error .timeout, q)
    ∧ terminal_features_raw (⟨.ok false, r, d⟩ :: rest) q
        = some (.error .timeout, q) :=
  ⟨rfl, rfl, rfl, rfl⟩

/-- C6: when the source yields a bare `PrimaryDeviceAttributes` beacon
without the feature-specific reply, each per-feature query returns success
with "not supported" — `Ok(None)` for keyboard flags and theme mode,
`Ok(false)` for synchronized output — consuming only the beacon and
performing no further drain read (the drain script flag `d` is irrelevant
and the rest of the queue is untouched). -/
theorem c6_beacon_means_unsupported (d : Bool) (rest : List Iter)
    (q : List InternalEvent) :
    query_keyboard_enhancement_flags_raw (⟨.ok true, true, d⟩ :: rest)
        (.primaryDeviceAttributes :: q) = some (.ok none, q)
    ∧ query_terminal_theme_mode_raw (⟨.ok true, true, d⟩ :: rest)
        (.primaryDeviceAttributes :: q) = some (.ok none, q)
    ∧ supports_synchronized_output_raw (⟨.ok true, true, d⟩ :: rest)
        (.primaryDeviceAttributes :: q) = some (.ok false, q) :=
  ⟨rfl, rfl, rfl⟩

/-- C7 counterexample: `supports_synchronized_output` reads the
feature-specific variant with payload `SynchronizedOutputMode(Unknown)`,
yet returns `Ok(false)` with NO drain read — the trailing
`PrimaryDeviceAttributes` beacon is left in the queue — contrary to the
claim that every feature-specific reply with payload is followed by a drain
of the beacon. -/
theorem c7_sync_unknown_counterexample :
    supports_synchronized_output_raw [⟨.ok true, true, true⟩]
        [.synchronizedOutputMode .unknown, .primaryDeviceAttributes]
      = some (.ok false, [.primaryDeviceAttributes]) :=
  rfl

/-- C7 (amended): whenever the read returns `KeyboardEnhancementFlags(F)`,
`ThemeModeChanged(T)`, or `SynchronizedOutputMode(Set | Reset)`, the query
decodes it, performs one drain read of the trailing
`PrimaryDeviceAttributes` beacon whose error (if any) is ignored and never
surfaced, and returns success with the decoded value; in particular both
events are consumed when the drain succeeds, and the value is still
returned when the drain fails. A `SynchronizedOutputMode(Unknown)` reply
instead returns `Ok(false)` with no drain read. -/
theorem c7_decode_then_drain (F : KeyboardEnhancementFlags) (T : ThemeMode)
    (d : Bool) (rest : List Iter) (q : List InternalEvent) :
    query_keyboard_enhancement_flags_raw (⟨.ok true, true, true⟩ :: rest)
        (.keyboardEnhancementFlags F :: .primaryDeviceAttributes :: q)
      = some (.ok (some F), q)
    ∧ query_keyboard_enhancement_flags_raw (⟨.ok true, true, false⟩ :: rest)
        (.keyboardEnhancementFlags F :: .primaryDeviceAttributes :: q)
      = some (.ok (some F), .primaryDeviceAttributes :: q)
    ∧ query_terminal_theme_mode_raw (⟨.ok true, true, true⟩ :: rest)
        (.event (.themeModeChanged T) :: .primaryDeviceAttributes :: q)
      = some (.ok (some T), q)
    ∧ query_terminal_theme_mode_raw (⟨.ok true, true, false⟩ :: rest)
        (.event (.themeModeChanged T) :: .primaryDeviceAttributes :: q)
      = some (.ok (some T), .primaryDeviceAttributes :: q)
    ∧ supports_synchronized_output_raw (⟨.ok true, true, true⟩ :: rest)
        (.synchronizedOutputMode .isSet :: .primaryDeviceAttributes :: q)
      = some (.ok true, q)
    ∧ supports_synchronized_output_raw (⟨.ok true, true, true⟩ :: rest)
        (.synchronizedOutputMode .reset :: .primaryDeviceAttributes :: q)
      = some (.ok true, q)
    ∧ supports_synchronized_output_raw (⟨.ok true, true, d⟩ :: rest)
        (.synchronizedOutputMode .unknown :: q)
      = some (.ok false, q) :=
  ⟨rfl, rfl, rfl, rfl, rfl, rfl, rfl⟩

/-- C8 counterexample: a transient (non-timeout) `read` error is NOT
swallowed and retried — it terminates the keyboard query with `Ok(None)`
and leaves the queue untouched, whereas the same source without the read
error yields `Ok(Some(1))`; the error both terminated the query and
changed its result. -/
theorem c8_read_error_counterexample :
    query_keyboard_enhancement_flags_raw [⟨.ok true, false, true⟩]
        [.keyboardEnhancementFlags 1, .primaryDeviceAttributes]
      = some (.ok none, [.keyboardEnhancementFlags 1, .primaryDeviceAttributes])
    ∧ query_keyboard_enhancement_flags_raw [⟨.ok true, true, true⟩]
        [.keyboardEnhancementFlags 1, .primaryDeviceAttributes]
      = some (.ok (some 1), []) :=
  ⟨rfl, rfl⟩

/-- C8 (amended): a transient `poll` error that is not a timeout is
swallowed and the poll loop is retried without resending the probe — it
never terminates the query and never changes its eventual result (the query
on the shortened script is literally the same). A transient `read` error,
by contrast, terminates the query immediately with the not-supported
success value: `Ok(None)`, `Ok(false)`, or the features accumulated so far
(the default at the first iteration), leaving the queue unchanged. -/
theorem c8_transient_error_handling (r d : Bool) (rest : List Iter)
    (q : List InternalEvent) :
    query_terminal_theme_mode_raw (⟨.err, r, d⟩ :: rest) q
        = query_terminal_theme_mode_raw rest q
    ∧ supports_synchronized_output_raw (⟨.err, r, d⟩ :: rest) q
        = supports_synchronized_output_raw rest q
    ∧ query_keyboard_enhancement_flags_raw (⟨.err, r, d⟩ :: rest) q
        = query_keyboard_enhancement_flags_raw rest q
    ∧ terminal_features_raw (⟨.err, r, d⟩ :: rest) q
        = terminal_features_raw rest q
    ∧ query_terminal_theme_mode_raw (⟨.ok true, false, d⟩ :: rest) q
        = some (.ok none, q)
    ∧ supports_synchronized_output_raw (⟨.ok true, false, d⟩ :: rest) q
        = some (.ok false, q)
    ∧ query_keyboard_enhancement_flags_raw (⟨.ok true, false, d⟩ :: rest) q
        = some (.ok none, q)
    ∧ terminal_features_raw (⟨.ok true, false, d⟩ :: rest) q
        = some (.ok TerminalFeatures.default, q) :=
  ⟨rfl, rfl, rfl, rfl, rfl, rfl, rfl, rfl⟩

/-- C9: `terminal_features` starts accumulating from the default features
(keyboard flags absent, synchronized output `Unknown`, theme absent),
accumulates each feature-specific reply, and the loop ends on the first
`PrimaryDeviceAttributes` beacon, returning the accumulated struct with
never-reported fields left at their defaults; in particular, for a source
yielding `KeyboardEnhancementFlags(F)`, `SynchronizedOutputMode(Set)`, then
`PrimaryDeviceAttributes`, it returns `{keyboard_enhancement_flags: Some(F),
synchronized_output_mode: Set, theme_mode: None}`. -/
theorem c9_terminal_features_aggregation (F : KeyboardEnhancementFlags)
    (rest iters : List Iter) (q : List InternalEvent)
    (features : TerminalFeatures) :
    terminal_features_raw
        (⟨.ok true, true, true⟩ :: ⟨.ok true, true, true⟩
          :: ⟨.ok true, true, true⟩ :: rest)
        (.keyboardEnhancementFlags F :: .synchronizedOutputMode .isSet
          :: .primaryDeviceAttributes :: q)
      = some (.ok ⟨some F, .isSet, none⟩, q)
    ∧ terminal_features_raw iters q
        = terminal_features_loop iters q ⟨none, .unknown, none⟩
    ∧ terminal_features_loop (⟨.ok true, true, true⟩ :: iters)
        (.primaryDeviceAttributes :: q) features
      = some (.ok features, q) :=
  ⟨rfl, rfl, rfl⟩

/-- Shared lemma for the nonraw wrappers: when `enable_raw_mode` succeeded
and the raw-mode query returned, the wrapper's call trace is enable, query,
disable — whatever the query's result was. -/
theorem nonraw_wrapper_trace {β : Type} (rawOf : Termios → Termios)
    (eenv denv : SysEnv) (term t1 : Termios) (st st1 : Option Termios)
    (r : Except IOErr β)
    (hEn : enable_raw_mode rawOf eenv term st = (.ok (), st1, t1)) :
    (nonraw_wrapper rawOf eenv denv term st (some r)).2.2.2
      = [Action.enableRaw, Action.rawQuery, Action.disableRaw] := by
  simp only [nonraw_wrapper, hEn]
  rcases hd : disable_raw_mode denv t1 st1 with ⟨res, st2, t2⟩
  cases res <;> simp

/-- Shared lemma for the nonraw wrappers: when `enable_raw_mode` succeeded,
the raw-mode query returned `Ok(v)`, and `disable_raw_mode` failed, the
wrapper returns the disable error and discards `v`. -/
theorem nonraw_wrapper_disable_error_discards {β : Type}
    (rawOf : Termios → Termios) (eenv denv : SysEnv) (term t1 t2 : Termios)
    (st st1 st2 : Option Termios) (v : β) (e : IOErr)
    (hEn : enable_raw_mode rawOf eenv term st = (.ok (), st1, t1))
    (hDis : disable_raw_mode denv t1 st1 = (.error e, st2, t2)) :
    (nonraw_wrapper rawOf eenv denv term st (some (.ok v))).1
      = some (.error e) := by
  simp only [nonraw_wrapper, hEn, hDis]

/-- C4: in every nonraw wrapper, on every path on which `enable_raw_mode`
succeeded and the raw-mode query returned (with any outcome `out`,
including an error), `disable_raw_mode` is invoked after the query and
before the query's result is propagated: the wrapper's call trace is
enable, raw query, disable. -/
theorem c4_nonraw_always_disables (rawOf : Termios → Termios)
    (eenv denv : SysEnv) (term t1 : Termios) (st st1 : Option Termios)
    (iters : List Iter) (q : List InternalEvent)
    (hEn : enable_raw_mode rawOf eenv term st = (.ok (), st1, t1)) :
    (∀ out, query_terminal_theme_mode_raw iters q = some out →
      (query_terminal_theme_mode_nonraw rawOf eenv denv term st iters q).2.2.2
        = [Action.enableRaw, Action.rawQuery, Action.disableRaw])
    ∧ (∀ out, supports_synchronized_output_raw iters q = some out →
      (supports_synchronized_output_nonraw rawOf eenv denv term st iters q).2.2.2
        = [Action.enableRaw, Action.rawQuery, Action.disableRaw])
    ∧ (∀ out, query_keyboard_enhancement_flags_raw iters q = some out →
      (query_keyboard_enhancement_flags_nonraw rawOf eenv denv term st iters q).2.2.2
        = [Action.enableRaw, Action.rawQuery, Action.disableRaw])
    ∧ (∀ out, terminal_features_raw iters q = some out →
      (terminal_features_nonraw rawOf eenv denv term st iters q).2.2.2
        = [Action.enableRaw, Action.rawQuery, Action.disableRaw]) := by
  refine ⟨fun out h => ?_, fun out h => ?_, fun out h => ?_, fun out h => ?_⟩
  · unfold query_terminal_theme_mode_nonraw
    rw [h]
    exact nonraw_wrapper_trace rawOf eenv denv term t1 st st1 out.1 hEn
  · unfold supports_synchronized_output_nonraw
    rw [h]
    exact nonraw_wrapper_trace rawOf eenv denv term t1 st st1 out.1 hEn
  · unfold query_keyboard_enhancement_flags_nonraw
    rw [h]
    exact nonraw_wrapper_trace rawOf eenv denv term t1 st st1 out.1 hEn
  · unfold terminal_features_nonraw
    rw [h]
    exact nonraw_wrapper_trace rawOf eenv denv term t1 st st1 out.1 hEn

/-- C4 witness: all-successful syscalls, terminal attributes `0`, initially
cooked state, one clean poll iteration and a bare beacon in the queue. -/
theorem c4_nonraw_always_disables_witness :
    (query_terminal_theme_mode_nonraw id ⟨true, true, true⟩ ⟨true, true, true⟩
        0 none [⟨.ok true, true, true⟩] [.primaryDeviceAttributes]).2.2.2
      = [Action.enableRaw, Action.rawQuery, Action.disableRaw] :=
  (c4_nonraw_always_disables id ⟨true, true, true⟩ ⟨true, true, true⟩ 0 0
      none (some 0) [⟨.ok true, true, true⟩] [.primaryDeviceAttributes] rfl).1
    (.ok none, []) rfl

/-- C10: in every nonraw wrapper, if the raw-mode query succeeds with value
`v` but the final `disable_raw_mode` fails, the wrapper returns the disable
error and the successful query result `v` is discarded. -/
theorem c10_disable_error_discards_result (rawOf : Termios → Termios)
    (eenv denv : SysEnv) (term t1 t2 : Termios) (st st1 st2 : Option Termios)
    (e : IOErr) (iters : List Iter) (q : List InternalEvent)
    (hEn : enable_raw_mode rawOf eenv term st = (.ok (), st1, t1))
    (hDis : disable_raw_mode denv t1 st1 = (.error e, st2, t2)) :
    (∀ v qf, query_terminal_theme_mode_raw iters q = some (.ok v, qf) →
      (query_terminal_theme_mode_nonraw rawOf eenv denv term st iters q).1
        = some (.error e))
    ∧ (∀ v qf, supports_synchronized_output_raw iters q = some (.ok v, qf) →
      (supports_synchronized_output_nonraw rawOf eenv denv term st iters q).1
        = some (.error e))
    ∧ (∀ v qf, query_keyboard_enhancement_flags_raw iters q = some (.ok v, qf) →
      (query_keyboard_enhancement_flags_nonraw rawOf eenv denv term st iters q).1
        = some (.error e))
    ∧ (∀ v qf, terminal_features_raw iters q = some (.ok v, qf) →
      (terminal_features_nonraw rawOf eenv denv term st iters q).1
        = some (.error e)) := by
  refine ⟨fun v qf h => ?_, fun v qf h => ?_, fun v qf h => ?_, fun v qf h => ?_⟩
  · unfold query_terminal_theme_mode_nonraw
    rw [h]
    exact nonraw_wrapper_disable_error_discards rawOf eenv denv term t1 t2
      st st1 st2 v e hEn hDis
  · unfold supports_synchronized_output_nonraw
    rw [h]
    exact nonraw_wrapper_disable_error_discards rawOf eenv denv term t1 t2
      st st1 st2 v e hEn hDis
  · unfold query_keyboard_enhancement_flags_nonraw
    rw [h]
    exact nonraw_wrapper_disable_error_discards rawOf eenv denv term t1 t2
      st st1 st2 v e hEn hDis
  · unfold terminal_features_nonraw
    rw [h]
    exact nonraw_wrapper_disable_error_discards rawOf eenv denv term t1 t2
      st st1 st2 v e hEn hDis

/-- C10 witness: enable succeeds from the cooked state, the theme query
returns `Ok(None)` off a bare beacon, and the final attribute re-apply of
`disable_raw_mode` fails — the wrapper surfaces the disable error. -/
theorem c10_disable_error_discards_result_witness :
    (query_terminal_theme_mode_nonraw id ⟨true, true, true⟩ ⟨true, true, false⟩
        0 none [⟨.ok true, true, true⟩] [.primaryDeviceAttributes]).1
      = some (.error .sys) :=
  (c10_disable_error_discards_result id ⟨true, true, true⟩ ⟨true, true, false⟩
      0 0 0 none (some 0) (some 0) .sys [⟨.ok true, true, true⟩]
      [.primaryDeviceAttributes] rfl rfl).1 none [] rfl

end Crossterm
